import Mathlib

/-!
Verification development for the invoice/order extraction backend
(`backend/ocr_service.py`, `backend/order_service.py`, `backend/ocr_routes.py`).

The Python code is shallowly embedded: dictionaries parsed from JSON become
association lists of `JValue`, `decimal.Decimal` values become exact
coefficient-times-power-of-ten pairs (`Dec`), and code points where an
exception would escape the function are modelled with `Except`.
-/

namespace Amis

/-- Python `decimal.Decimal` finite value: `c * 10 ^ e`.
Arithmetic is modelled exactly; Python's default context rounds only beyond
28 significant digits, far outside the magnitudes the checks operate on.
Non-finite values (`NaN`, `Infinity`) are modelled as parse failures. -/
structure Dec where
  c : Int
  e : Int
deriving Repr, DecidableEq

/-- Rational value of a decimal. -/
def Dec.toRat (d : Dec) : ℚ := (d.c : ℚ) * (10 : ℚ) ^ d.e

/-- Exact product, as Python computes it for in-range operands. -/
def Dec.mul (a b : Dec) : Dec := ⟨a.c * b.c, a.e + b.e⟩

/-- Rescale the coefficient to exponent `m ≤ e`. -/
def Dec.scaleTo (a : Dec) (m : Int) : Int := a.c * (10 : Int) ^ (a.e - m).toNat

/-- Exact difference (ideal exponent `min e₁ e₂`, as in Python). -/
def Dec.sub (a b : Dec) : Dec :=
  let m := min a.e b.e
  ⟨a.scaleTo m - b.scaleTo m, m⟩

/-- Exact sum (ideal exponent `min e₁ e₂`, as in Python). -/
def Dec.add (a b : Dec) : Dec :=
  let m := min a.e b.e
  ⟨a.scaleTo m + b.scaleTo m, m⟩

/-- Absolute value. -/
def Dec.absD (a : Dec) : Dec := ⟨|a.c|, a.e⟩

/-- Value comparison `a > b`. -/
def Dec.gtD (a b : Dec) : Bool :=
  let m := min a.e b.e
  a.scaleTo m > b.scaleTo m

/-- Value comparison `a ≤ b`. -/
def Dec.leD (a b : Dec) : Bool :=
  let m := min a.e b.e
  a.scaleTo m ≤ b.scaleTo m

/-- Python truthiness of a `Decimal`: nonzero. -/
def Dec.truthy (a : Dec) : Bool := a.c ≠ 0

/-- `str` applied to a `Decimal`, following `decimal.__str__` for finite
values: fixed-point notation when `e ≤ 0` and the adjusted exponent is
at least `-6`, scientific notation otherwise. -/
def Dec.str (d : Dec) : String :=
  let sign := if d.c < 0 then "-" else ""
  let digits := toString d.c.natAbs
  let n : Int := Int.ofNat digits.length
  let leftdigits : Int := d.e + n
  if d.e ≤ 0 ∧ leftdigits > -6 then
    if leftdigits ≤ 0 then
      sign ++ "0." ++ String.mk (List.replicate (-leftdigits).toNat '0') ++ digits
    else if leftdigits ≥ n then
      sign ++ digits
    else
      sign ++ digits.take leftdigits.toNat ++ "." ++ digits.drop leftdigits.toNat
  else
    let exp := leftdigits - 1
    let mant := if digits.length = 1 then digits else digits.take 1 ++ "." ++ digits.drop 1
    sign ++ mant ++ "E" ++ (if exp ≥ 0 then "+" ++ toString exp else toString exp)

/-- Whitespace stripped by Python's `str.strip()` (ASCII portion). -/
def pyIsSpace (ch : Char) : Bool :=
  ch = ' ' ∨ ch = '\t' ∨ ch = '\n' ∨ ch = '\r' ∨ ch = '\x0b' ∨ ch = '\x0c'

/-- Numeric value of a digit character. -/
def charDigit (ch : Char) : Nat := ch.toNat - '0'.toNat

/-- Value of a digit string. -/
def digitsVal (ds : List Char) : Nat := ds.foldl (fun a ch => a * 10 + charDigit ch) 0

/-- `decimal.Decimal(s)` on a string: underscores are removed, surrounding
whitespace stripped, then `[sign] digits [. digits] [(e|E) [sign] digits]`
with at least one digit; anything else (including `NaN`/`Infinity` forms,
which never participate meaningfully in the checks) is a failure. -/
def decimalParse (s : String) : Option Dec :=
  let cs := s.data.filter (fun ch => ch ≠ '_')
  let cs := cs.dropWhile pyIsSpace
  let cs := (cs.reverse.dropWhile pyIsSpace).reverse
  let (neg, cs) : Bool × List Char :=
    match cs with
    | '-' :: r => (true, r)
    | '+' :: r => (false, r)
    | _ => (false, cs)
  let intDs := cs.takeWhile Char.isDigit
  let cs := cs.dropWhile Char.isDigit
  let (fracDs, cs) : List Char × List Char :=
    match cs with
    | '.' :: r => (r.takeWhile Char.isDigit, r.dropWhile Char.isDigit)
    | _ => ([], cs)
  if intDs.length + fracDs.length = 0 then none
  else
    let mkDec (ex : Int) : Dec :=
      let m : Int := Int.ofNat (digitsVal (intDs ++ fracDs))
      ⟨if neg then -m else m, ex - Int.ofNat fracDs.length⟩
    match cs with
    | [] => some (mkDec 0)
    | 'e' :: r => decimalParseExp mkDec r
    | 'E' :: r => decimalParseExp mkDec r
    | _ => none
where
  decimalParseExp (mk : Int → Dec) (r : List Char) : Option Dec :=
    let (esign, r) : Bool × List Char :=
      match r with
      | '-' :: r2 => (true, r2)
      | '+' :: r2 => (false, r2)
      | _ => (false, r)
    let eds := r.takeWhile Char.isDigit
    let r2 := r.dropWhile Char.isDigit
    if eds = [] ∨ r2 ≠ [] then none
    else some (mk (if esign then -(Int.ofNat (digitsVal eds)) else Int.ofNat (digitsVal eds)))

/-- A JSON value as produced by `json.loads`. Numeric literals without a
fraction or exponent become Python `int`s; the rest become floats, modelled
here by their exact decimal value (the claims never exercise values where
IEEE rounding of a literal would be observable). -/
inductive JValue where
  | null
  | bool (b : Bool)
  | int (n : Int)
  | float (d : Dec)
  | str (s : String)
  | arr (elems : List JValue)
  | obj (fields : List (String × JValue))
deriving Repr

/-- `sep.join(parts)`. -/
def intercalateStr (sep : String) : List String → String
  | [] => ""
  | [x] => x
  | x :: xs => x ++ sep ++ intercalateStr sep xs

mutual

/-- Python `repr` of a parsed-JSON value (string escaping inside nested
reprs is not reproduced; the program only ever filters these strings for
digit characters or feeds them to `Decimal`, which fails on the brackets). -/
def pyRepr : JValue → String
  | .null => "None"
  | .bool true => "True"
  | .bool false => "False"
  | .int n => toString n
  | .float d => d.str
  | .str s => "'" ++ s ++ "'"
  | .arr xs => "[" ++ intercalateStr ", " (pyReprList xs) ++ "]"
  | .obj fs => "\x7b" ++ intercalateStr ", " (pyReprFields fs) ++ "\x7d"

def pyReprList : List JValue → List String
  | [] => []
  | x :: xs => pyRepr x :: pyReprList xs

def pyReprFields : List (String × JValue) → List String
  | [] => []
  | (k, v) :: fs => ("'" ++ k ++ "': " ++ pyRepr v) :: pyReprFields fs

end

/-- Python `str` of a parsed-JSON value. -/
def pyStr : JValue → String
  | .str s => s
  | v => pyRepr v

/-- Python truthiness of a parsed-JSON value. -/
def pyTruthy : JValue → Bool
  | .null => false
  | .bool b => b
  | .int n => n ≠ 0
  | .float d => d.c ≠ 0
  | .str s => s ≠ ""
  | .arr xs => ¬ xs.isEmpty
  | .obj fs => ¬ fs.isEmpty

/-- Dictionary update `d[k] = v`: replace the value of an existing key in
place, else append (Python dicts keep insertion order). -/
def insertKey : List (String × JValue) → String → JValue → List (String × JValue)
  | [], k, v => [(k, v)]
  | (k', v') :: fs, k, v =>
      if k' = k then (k, v) :: fs else (k', v') :: insertKey fs k v

/-- Dictionary read `d.get(k, default)`. -/
def getD (fs : List (String × JValue)) (k : String) (d : JValue) : JValue :=
  (List.lookup k fs).getD d

/-- JSON whitespace skipped by Python's (strict) `json` scanner. -/
def skipWsJ : List Char → List Char
  | c :: cs => if c = ' ' ∨ c = '\t' ∨ c = '\n' ∨ c = '\r' then skipWsJ cs else c :: cs
  | [] => []

/-- Hex digit value, if any. -/
def hexVal (ch : Char) : Option Nat :=
  if '0' ≤ ch ∧ ch ≤ '9' then some (ch.toNat - '0'.toNat)
  else if 'a' ≤ ch ∧ ch ≤ 'f' then some (ch.toNat - 'a'.toNat + 10)
  else if 'A' ≤ ch ∧ ch ≤ 'F' then some (ch.toNat - 'A'.toNat + 10)
  else none

/-- JSON string literal body (after the opening quote), fuel-bounded.
`\uXXXX` escapes are mapped through `Char.ofNat` (surrogate-pair recombining
is not reproduced; no claim touches it). -/
def parseStrBody : Nat → List Char → List Char → Option (String × List Char)
  | 0, _, _ => none
  | _ + 1, _, [] => none
  | _ + 1, acc, '"' :: r => some (String.mk acc.reverse, r)
  | fuel + 1, acc, '\\' :: r =>
      match r with
      | '"' :: r2 => parseStrBody fuel ('"' :: acc) r2
      | '\\' :: r2 => parseStrBody fuel ('\\' :: acc) r2
      | '/' :: r2 => parseStrBody fuel ('/' :: acc) r2
      | 'b' :: r2 => parseStrBody fuel ('\x08' :: acc) r2
      | 'f' :: r2 => parseStrBody fuel ('\x0c' :: acc) r2
      | 'n' :: r2 => parseStrBody fuel ('\n' :: acc) r2
      | 'r' :: r2 => parseStrBody fuel ('\r' :: acc) r2
      | 't' :: r2 => parseStrBody fuel ('\t' :: acc) r2
      | 'u' :: a :: b :: c :: d :: r2 =>
          match hexVal a, hexVal b, hexVal c, hexVal d with
          | some x, some y, some z, some w =>
              parseStrBody fuel (Char.ofNat (((x * 16 + y) * 16 + z) * 16 + w) :: acc) r2
          | _, _, _, _ => none
      | _ => none
  | fuel + 1, acc, ch :: r =>
      if ch.toNat < 32 then none else parseStrBody fuel (ch :: acc) r

/-- JSON number literal (strict grammar: no leading zeros, `-` only). -/
def parseNumber (cs : List Char) : Option (JValue × List Char) :=
  let (neg, cs1) : Bool × List Char :=
    match cs with
    | '-' :: r => (true, r)
    | _ => (false, cs)
  let intDs := cs1.takeWhile Char.isDigit
  let cs2 := cs1.dropWhile Char.isDigit
  if intDs.isEmpty then none
  else if intDs.length > 1 ∧ intDs.head? = some '0' then none
  else
    let (fracDs, cs3, isFloat) : List Char × List Char × Bool :=
      match cs2 with
      | '.' :: r => (r.takeWhile Char.isDigit, r.dropWhile Char.isDigit, true)
      | _ => ([], cs2, false)
    if isFloat ∧ fracDs.isEmpty then none
    else
      let mk (ex : Int) (forceFloat : Bool) : JValue :=
        let m : Int := Int.ofNat (digitsVal (intDs ++ fracDs))
        let m := if neg then -m else m
        if isFloat ∨ forceFloat then .float ⟨m, ex - Int.ofNat fracDs.length⟩ else .int m
      match cs3 with
      | 'e' :: r => parseNumberExp mk r
      | 'E' :: r => parseNumberExp mk r
      | _ => some (mk 0 false, cs3)
where
  parseNumberExp (mk : Int → Bool → JValue) (r : List Char) : Option (JValue × List Char) :=
    let (esign, r2) : Bool × List Char :=
      match r with
      | '-' :: t => (true, t)
      | '+' :: t => (false, t)
      | _ => (false, r)
    let eds := r2.takeWhile Char.isDigit
    let r3 := r2.dropWhile Char.isDigit
    if eds.isEmpty then none
    else some (mk (if esign then -(Int.ofNat (digitsVal eds)) else Int.ofNat (digitsVal eds)) true, r3)

mutual

/-- JSON value, fuel-bounded recursive descent as in Python's `json.loads`
(the non-standard `NaN`/`Infinity` extensions are not modelled). -/
def parseValue : Nat → List Char → Option (JValue × List Char)
  | 0, _ => none
  | fuel + 1, cs =>
    match skipWsJ cs with
    | 'n' :: 'u' :: 'l' :: 'l' :: r => some (.null, r)
    | 't' :: 'r' :: 'u' :: 'e' :: r => some (.bool true, r)
    | 'f' :: 'a' :: 'l' :: 's' :: 'e' :: r => some (.bool false, r)
    | '"' :: r =>
        match parseStrBody (r.length + 1) [] r with
        | some (s, r2) => some (.str s, r2)
        | none => none
    | '[' :: r =>
        (match skipWsJ r with
         | ']' :: r2 => some (.arr [], r2)
         | r2 => parseArrRest fuel r2 [])
    | '\x7b' :: r =>
        (match skipWsJ r with
         | '\x7d' :: r2 => some (.obj [], r2)
         | r2 => parseObjRest fuel r2 [])
    | cs2 => parseNumber cs2

/-- Array members after `[`, fuel-bounded. -/
def parseArrRest : Nat → List Char → List JValue → Option (JValue × List Char)
  | 0, _, _ => none
  | fuel + 1, cs, acc =>
    match parseValue fuel cs with
    | none => none
    | some (v, r) =>
      match skipWsJ r with
      | ',' :: r2 => parseArrRest fuel r2 (v :: acc)
      | ']' :: r2 => some (.arr (v :: acc).reverse, r2)
      | _ => none

/-- Object members after `\x7b`, fuel-bounded; duplicate keys keep the last
occurrence, as in Python. -/
def parseObjRest : Nat → List Char → List (String × JValue) → Option (JValue × List Char)
  | 0, _, _ => none
  | fuel + 1, cs, acc =>
    match cs with
    | '"' :: r =>
      (match parseStrBody (r.length + 1) [] r with
       | none => none
       | some (k, r2) =>
         match skipWsJ r2 with
         | ':' :: r3 =>
           (match parseValue fuel r3 with
            | none => none
            | some (v, r4) =>
              let acc := insertKey acc k v
              match skipWsJ r4 with
              | ',' :: r5 =>
                  (match skipWsJ r5 with
                   | '"' :: r6 => parseObjRest fuel ('"' :: r6) acc
                   | _ => none)
              | '\x7d' :: r5 => some (.obj acc, r5)
              | _ => none)
         | _ => none)
    | _ => none

end

/-- `json.loads`: the whole string must be one JSON value, up to surrounding
whitespace. -/
def jsonLoads (s : String) : Option JValue :=
  match parseValue (2 * s.data.length + 8) s.data with
  | some (v, rest) => if (skipWsJ rest).isEmpty then some v else none
  | none => none

/-- Python `str.strip()` (ASCII whitespace model). -/
def pyStrip (s : String) : String :=
  String.mk (((s.data.dropWhile pyIsSpace).reverse.dropWhile pyIsSpace).reverse)

/-- Index of the first occurrence of `c`, like Python `str.find`. -/
def firstIdx (cs : List Char) (c : Char) : Option Nat :=
  match cs with
  | [] => none
  | x :: xs => if x = c then some 0 else (firstIdx xs c).map (· + 1)

/-- Index of the last occurrence of `c`, like Python `str.rfind`. -/
def lastIdx (cs : List Char) (c : Char) : Option Nat :=
  (firstIdx cs.reverse c).map (fun i => cs.length - 1 - i)

/-- Python slice `text[start:stop]` for `0 ≤ start`. -/
def pySlice (cs : List Char) (start stop : Nat) : List Char :=
  (cs.drop start).take (stop - start)

/-- Python `text.split(c)` for a single separator character. -/
def splitChar (sep : Char) : List Char → List (List Char)
  | [] => [[]]
  | c :: r =>
      if c = sep then [] :: splitChar sep r
      else
        match splitChar sep r with
        | h :: t => (c :: h) :: t
        | [] => [[c]]

/-- Markdown-fence preprocessing shared by the extractor: strip surrounding
whitespace; if the stripped text starts with a fence marker and splits into
more than two `\n`-separated lines, drop the first and last lines. -/
def fenceStrip (response_text : String) : String :=
  let text := pyStrip response_text
  if text.data.take 3 = "```".data then
    let lines := splitChar '\n' text.data
    if lines.length > 2 then String.mk (List.intercalate ['\n'] ((lines.drop 1).dropLast))
    else text
  else text

/-- `_extract_json_from_response` (identical in `ocr_service.py` and
`order_service.py`): fence-strip, then take the substring from the first
`\x7b` to the last `\x7d` inclusive and `json.loads` it; absence of either
brace, or a parse failure (`json.JSONDecodeError`), yields `None`. -/
def extract_json_from_response (response_text : String) : Option JValue :=
  let text := fenceStrip response_text
  let cs := text.data
  match firstIdx cs '\x7b', lastIdx cs '\x7d' with
  | some st, some en => jsonLoads (String.mk (pySlice cs st (en + 1)))
  | _, _ => none

/-- PayloadExtractor as the specification words it (§4.1): after the same
whitespace/fence preprocessing, if the text contains both a `\x7b` and a
`\x7d`, decode the inclusive substring between the first `\x7b` and the last
`\x7d` with the JSON parser; otherwise, and on any parse failure, report
"payload not found" (`none`) — never a partial object. -/
def extractJsonSpec (response_text : String) : Option JValue :=
  let text := fenceStrip response_text
  let cs := text.data
  if cs.contains '\x7b' && cs.contains '\x7d' then
    match firstIdx cs '\x7b', lastIdx cs '\x7d' with
    | some st, some en => jsonLoads (String.mk (pySlice cs st (en + 1)))
    | _, _ => none
  else none

/-- `str(value).replace(",", "")`. -/
def replaceCommas (s : String) : String := String.mk (s.data.filter (fun ch => ch ≠ ','))

/-- `Decimal(str(value).replace(",", ""))`, the coercion used throughout
`ocr_service.py`; `none` models the raised `InvalidOperation`. -/
def coerceDec (v : JValue) : Option Dec := decimalParse (replaceCommas (pyStr v))

/-- Warning text for an out-of-range tax-code length. -/
def taxLenWarn (jv : JValue) (cleaned : String) : String :=
  let sv := pyStr jv
  let n := cleaned.length
  s!"MST không hợp lệ: {sv} (độ dài: {n})"

/-- `clean_tax_code` from `_validate_and_fix_numbers`: falsy input gives
`None`; otherwise keep only digits of `str(value)`, warn when the cleaned
length is outside 10–13, and return `None` when nothing is left.
Result: (cleaned value, optional warning). -/
def clean_tax_code : Option JValue → Option String × Option String
  | none => (none, none)
  | some jv =>
    if pyTruthy jv then
      let cleaned := String.mk ((pyStr jv).data.filter Char.isDigit)
      let warn :=
        if cleaned.length < 10 ∨ cleaned.length > 13 then some (taxLenWarn jv cleaned)
        else none
      (if cleaned = "" then none else some cleaned, warn)
    else (none, none)

/-- The review note written on a seller/buyer tax-code collision. -/
def taxCollisionNote : String := "MST người bán và người mua giống nhau"

/-- The logged warning on a seller/buyer tax-code collision. -/
def taxCollisionWarn (cleaned : String) : String :=
  s!"⚠️ MST người bán = MST người mua ({cleaned}) - CẦN KIỂM TRA!"

/-- `None`-or-string written back into the dictionary. -/
def jOfOptStr : Option String → JValue
  | none => .null
  | some s => .str s

/-- Tax-code phase of `_validate_and_fix_numbers` (steps 1): clean both
codes, flag a collision (setting `needs_review` and `review_notes`), and
write the cleaned values back. Returns the updated dictionary and the
warnings produced, in order. -/
def taxFix (raw : List (String × JValue)) : List (String × JValue) × List String :=
  let st := clean_tax_code (List.lookup "seller_tax_code" raw)
  let bt := clean_tax_code (List.lookup "buyer_tax_code" raw)
  let collide : Option String :=
    match st.1, bt.1 with
    | some s, some b => if s = b then some s else none
    | _, _ => none
  let raw1 :=
    match collide with
    | some _ =>
        insertKey (insertKey raw "needs_review" (.bool true)) "review_notes" (.str taxCollisionNote)
    | none => raw
  let w3 :=
    match collide with
    | some s => [taxCollisionWarn s]
    | none => []
  let raw2 := insertKey (insertKey raw1 "seller_tax_code" (jOfOptStr st.1)) "buyer_tax_code" (jOfOptStr bt.1)
  (raw2, st.2.toList ++ bt.2.toList ++ w3)

/-- Per-item warning when the line-total check could not run; the Python
message also carries the exception text (`f"Item \x7bidx\x7d: Lỗi validate số: \x7bstr(e)\x7d"`),
which no claim inspects. -/
def invItemExcWarn (idx : Nat) : String := s!"Item {idx}: Lỗi validate số"

/-- Warning naming the line index, the observed quantity, unit price and
declared amount, and the expected line total. -/
def invItemMismatchWarn (idx : Nat) (q p a expected : Dec) : String :=
  let sq := q.str
  let sp := p.str
  let sa := a.str
  let se := expected.str
  s!"Item {idx}: {sq} × {sp} ≠ {sa} (expected: {se})"

/-- Loop body of step 2 of `_validate_and_fix_numbers`: coerce quantity,
unit price and amount (defaults 0); on `|quantity*unit_price - amount| >
0.01` overwrite `amount` with `str(expected)` and warn; any coercion
failure, or a non-dict item, is caught and produces one warning. -/
def validateInvoiceItem (idx : Nat) (item : JValue) : JValue × Option String :=
  match item with
  | .obj fs =>
    (match coerceDec (getD fs "quantity" (.int 0)) with
     | none => (item, some (invItemExcWarn idx))
     | some q =>
       match coerceDec (getD fs "unit_price" (.int 0)) with
       | none => (item, some (invItemExcWarn idx))
       | some p =>
         match coerceDec (getD fs "amount" (.int 0)) with
         | none => (item, some (invItemExcWarn idx))
         | some a =>
           let expected := q.mul p
           if (expected.sub a).absD.gtD ⟨1, -2⟩ then
             (.obj (insertKey fs "amount" (.str expected.str)),
              some (invItemMismatchWarn idx q p a expected))
           else (item, none))
  | _ => (item, some (invItemExcWarn idx))

/-- Values Python's `for` can iterate (`none` models the `TypeError` that
escapes the validators): lists yield their elements, strings their
characters, dicts their keys. -/
def pyIterElems : JValue → Option (List JValue)
  | .arr xs => some xs
  | .str s => some (s.data.map (fun ch => JValue.str (String.mk [ch])))
  | .obj fs => some (fs.map (fun kv => JValue.str kv.1))
  | _ => none

/-- `for idx, item in enumerate(v, 1)` over a JSON value, applying `step`
to each element; for a list the (possibly mutated) elements replace the
old ones, any other iterable is unchanged by the loop. -/
def runItems {α : Type} (step : Nat → JValue → JValue × α) (v : JValue) :
    Option (JValue × List α) :=
  match pyIterElems v with
  | none => none
  | some elems =>
    let res := elems.enum.map (fun p => step (p.1 + 1) p.2)
    let v' :=
      match v with
      | .arr _ => JValue.arr (res.map Prod.fst)
      | _ => v
    some (v', res.map Prod.snd)

/-- Aggregate-mismatch warning of step 3. -/
def totalsMismatchWarn (s t g : Dec) : String :=
  let ss := s.str
  let st := t.str
  let sg := g.str
  s!"Tổng tiền: {ss} + {st} ≠ {sg}"

/-- Step 3 of `_validate_and_fix_numbers`: read the three aggregate fields
(defaults 0), warn when `|(subtotal + tax) - total| > 0.01`; a coercion
failure is caught and produces one warning (whose Python text carries the
exception message). Nothing is written back. -/
def totalsWarnings (raw : List (String × JValue)) : List String :=
  match coerceDec (getD raw "total_amount_without_vat" (.int 0)) with
  | none => ["Lỗi validate tổng tiền"]
  | some s =>
    match coerceDec (getD raw "total_vat_amount" (.int 0)) with
    | none => ["Lỗi validate tổng tiền"]
    | some t =>
      match coerceDec (getD raw "total_amount" (.int 0)) with
      | none => ["Lỗi validate tổng tiền"]
      | some g =>
        if ((s.add t).sub g).absD.gtD ⟨1, -2⟩ then [totalsMismatchWarn s t g] else []

/-- `_validate_and_fix_numbers` (`ocr_service.py`): tax-code phase, per-item
phase, aggregate check. The returned warning list models the warnings the
source accumulates and logs (the source returns only the dictionary — the
warnings never reach `review_notes`). `Except.error` models the `TypeError`
raised when the `items` value is not iterable. -/
def validate_and_fix_numbers (raw : List (String × JValue)) :
    Except String (List (String × JValue) × List String) :=
  let tr := taxFix raw
  match List.lookup "items" tr.1 with
  | none => .ok (tr.1, tr.2 ++ totalsWarnings tr.1)
  | some v =>
    match runItems validateInvoiceItem v with
    | none => .error "TypeError: object is not iterable"
    | some (v', ws) =>
      let r2 := insertKey tr.1 "items" v'
      .ok (r2, tr.2 ++ ws.filterMap id ++ totalsWarnings r2)

/-- `get_safe_decimal` / the converter-side `safe_decimal` of
`order_service.py`: `None`, `""` and `"null"` give `None`; otherwise remove
commas and spaces from `str(value)`, strip, reject `none`/`null`/`n/a`
(case-insensitive) and the empty remainder, then `Decimal`; any failure is
swallowed into `None`. -/
def get_safe_decimal (v : JValue) : Option Dec :=
  match v with
  | .null => none
  | .str "" => none
  | .str "null" => none
  | jv =>
    let clean := pyStrip (String.mk ((pyStr jv).data.filter (fun ch => ch ≠ ',' ∧ ch ≠ ' ')))
    let lower := String.mk (clean.data.map Char.toLower)
    if clean = "" ∨ lower = "none" ∨ lower = "null" ∨ lower = "n/a" then none
    else decimalParse clean

/-- Warning text for an out-of-range phone-number length. -/
def phoneLenWarn (jv : JValue) (cleaned : String) : String :=
  let sv := pyStr jv
  let n := cleaned.length
  s!"SĐT không hợp lệ: {sv} (độ dài: {n})"

/-- Phone phase of `_validate_order_data`: for a truthy `customer_phone`,
keep only digits, warn and set `needs_review` when the length is outside
10–11, and write back the cleaned value (`None` when empty). -/
def phoneFix (raw : List (String × JValue)) : List (String × JValue) × List String :=
  match List.lookup "customer_phone" raw with
  | some jv =>
    if pyTruthy jv then
      let cleaned := String.mk ((pyStr jv).data.filter Char.isDigit)
      let step1 : List (String × JValue) × List String :=
        if cleaned.length < 10 ∨ cleaned.length > 11 then
          (insertKey raw "needs_review" (.bool true), [phoneLenWarn jv cleaned])
        else (raw, [])
      (insertKey step1.1 "customer_phone" (if cleaned = "" then .null else .str cleaned), step1.2)
    else (raw, [])
  | none => (raw, [])

/-- Per-item warning for a caught exception in `_validate_order_data`
(Python appends `f"Item \x7bidx\x7d: Lỗi validate: \x7bstr(e)\x7d"`). -/
def ordItemExcWarn (idx : Nat) : String := s!"Item {idx}: Lỗi validate"

/-- Warning for a non-positive quantity. -/
def ordQtyWarn (idx : Nat) : String := s!"Item {idx}: Số lượng <= 0"

/-- Warning for a line-total mismatch in the order pipeline. -/
def ordItemMismatchWarn (idx : Nat) (q p t : Dec) : String :=
  let sq := q.str
  let sp := p.str
  let st := t.str
  s!"Item {idx}: {sq} × {sp} ≠ {st}"

/-- Loop body of `_validate_order_data`: non-positive (and nonzero)
quantities warn and request review; the line-total correction runs only
when quantity, unit price and total price are all parsed and truthy
(nonzero), with tolerance `1`; a non-dict item raises inside the loop `try`
and yields one warning. Result: (item, (warnings, needs_review)). -/
def validateOrderItem (idx : Nat) (item : JValue) : JValue × (List String × Bool) :=
  match item with
  | .obj fs =>
    let q := get_safe_decimal (getD fs "quantity" (.int 0))
    let qtyFlag : List String × Bool :=
      match q with
      | some d => if d.truthy ∧ d.leD ⟨0, 0⟩ then ([ordQtyWarn idx], true) else ([], false)
      | none => ([], false)
    let p := get_safe_decimal (getD fs "unit_price" .null)
    let t := get_safe_decimal (getD fs "total_price" .null)
    (match q, p, t with
     | some qd, some pd, some td =>
       if qd.truthy ∧ pd.truthy ∧ td.truthy then
         let expected := qd.mul pd
         if (expected.sub td).absD.gtD ⟨1, 0⟩ then
           (.obj (insertKey fs "total_price" (.str expected.str)),
            (qtyFlag.1 ++ [ordItemMismatchWarn idx qd pd td], qtyFlag.2))
         else (item, qtyFlag)
       else (item, qtyFlag)
     | _, _, _ => (item, qtyFlag))
  | _ => (item, ([ordItemExcWarn idx], false))

/-- Step 3 of `_validate_order_data`: when `customer_name` or
`customer_phone` is falsy, set `needs_review` and overwrite `review_notes`
with the join of the applicable missing-field notes. -/
def missingInfoFix (raw : List (String × JValue)) : List (String × JValue) :=
  let nameMissing := ¬ pyTruthy (getD raw "customer_name" .null)
  let phoneMissing := ¬ pyTruthy (getD raw "customer_phone" .null)
  if nameMissing ∨ phoneMissing then
    let notes :=
      (if nameMissing then ["Thiếu tên khách hàng"] else []) ++
      (if phoneMissing then ["Thiếu số điện thoại"] else [])
    insertKey (insertKey raw "needs_review" (.bool true)) "review_notes"
      (.str (intercalateStr "; " notes))
  else raw

/-- `_validate_order_data` (`order_service.py`): phone phase, per-item
phase, missing-information phase. The returned warnings model the logged
(then discarded) warning list; `Except.error` models the `TypeError` raised
when `items` is present but not iterable. -/
def validate_order_data (raw : List (String × JValue)) :
    Except String (List (String × JValue) × List String) :=
  let pr := phoneFix raw
  match List.lookup "items" pr.1 with
  | none => .ok (missingInfoFix pr.1, pr.2)
  | some v =>
    match runItems validateOrderItem v with
    | none => .error "TypeError: object is not iterable"
    | some (v', res) =>
      let ws := (res.map Prod.fst).flatten
      let nr := res.any Prod.snd
      let r2 := insertKey pr.1 "items" v'
      let r3 := if nr then insertKey r2 "needs_review" (.bool true) else r2
      .ok (missingInfoFix r3, pr.2 ++ ws)

/-- A calendar date as `datetime.date` holds it. -/
structure PyDate where
  y : Nat
  m : Nat
  d : Nat
deriving Repr, DecidableEq

/-- Gregorian leap year. -/
def isLeap (y : Nat) : Bool := y % 4 = 0 ∧ (y % 100 ≠ 0 ∨ y % 400 = 0)

/-- Days in a month. -/
def daysInMonth (y m : Nat) : Nat :=
  if m = 2 then (if isLeap y then 29 else 28)
  else if m = 4 ∨ m = 6 ∨ m = 9 ∨ m = 11 then 30 else 31

/-- Two-digit (`3[01]|[12]\d|0[1-9]`) or one-digit (`[1-9]`) day matching
the whole remaining input, as the `strptime` `%d` regex does. -/
def strptimeDay : List Char → Option Nat
  | [a, b] =>
      if a = '3' ∧ ('0' ≤ b ∧ b ≤ '1') then some (30 + charDigit b)
      else if ('1' ≤ a ∧ a ≤ '2') ∧ b.isDigit then some (charDigit a * 10 + charDigit b)
      else if a = '0' ∧ ('1' ≤ b ∧ b ≤ '9') then some (charDigit b)
      else none
  | [a] => if '1' ≤ a ∧ a ≤ '9' then some (charDigit a) else none
  | _ => none

/-- `datetime.strptime(s, "%Y-%m-%d").date()`: exactly four year digits, a
month matching `1[0-2]|0[1-9]|[1-9]` (alternatives tried in order, with
backtracking), a literal `-`, a day consuming the rest, and the value check
the `datetime` constructor performs (day in range for the month, year ≥ 1).
ASCII digits model the regex `\d`. -/
def parseDateYMD (s : String) : Option PyDate :=
  match s.data with
  | y1 :: y2 :: y3 :: y4 :: '-' :: rest =>
    if y1.isDigit ∧ y2.isDigit ∧ y3.isDigit ∧ y4.isDigit then
      let y := ((charDigit y1 * 10 + charDigit y2) * 10 + charDigit y3) * 10 + charDigit y4
      let md : Option (Nat × Nat) :=
        (match rest with
         | '1' :: b :: '-' :: rest2 =>
             if '0' ≤ b ∧ b ≤ '2' then (strptimeDay rest2).map (fun d => (10 + charDigit b, d))
             else none
         | _ => none) <|>
        (match rest with
         | '0' :: b :: '-' :: rest2 =>
             if '1' ≤ b ∧ b ≤ '9' then (strptimeDay rest2).map (fun d => (charDigit b, d))
             else none
         | _ => none) <|>
        (match rest with
         | a :: '-' :: rest2 =>
             if '1' ≤ a ∧ a ≤ '9' then (strptimeDay rest2).map (fun d => (charDigit a, d))
             else none
         | _ => none)
      match md with
      | some (m, d) => if 1 ≤ y ∧ d ≤ daysInMonth y m then some ⟨y, m, d⟩ else none
      | none => none
    else none
  | _ => none

/-- Pydantic `Optional[str]` field read from `raw_data.get(k)`: strings
pass, `None`/absent give `None`; any other type is a `ValidationError`
escaping the converter (Pydantic's lax str coercions do not apply to
non-string JSON values here). -/
def pydOptStr : Option JValue → Except String (Option String)
  | none => .ok none
  | some .null => .ok none
  | some (.str s) => .ok (some s)
  | some _ => .error "ValidationError"

/-- Pydantic `bool` field read from `raw_data.get("needs_review", False)`.
Only genuine booleans appear here in the pipeline (the validators write
Python `True`); other values Pydantic would coerce or reject are modelled
as errors, which only narrows where assembly succeeds. -/
def pydBool : Option JValue → Except String Bool
  | none => .ok false
  | some (.bool b) => .ok b
  | some _ => .error "ValidationError"

/-- Converter-side `safe_decimal(value, default)` of `ocr_service.py`:
`Decimal(str(value).replace(",", ""))` with the default on failure. -/
def safe_decimal (v : JValue) (dflt : Dec) : Dec := (coerceDec v).getD dflt

/-- The slice of `InvoiceDetailItem` the claims can observe (the string
fields are carried as raw JSON values; Pydantic's string validation, which
could only skip further items, is not modelled). -/
structure InvoiceItemRecord where
  line_number : Nat
  item_code : JValue
  item_name : JValue
  quantity : Dec
  unit_price : Dec
  amount : Dec
  vat_amount : Dec
deriving Repr

/-- Item assembly inside `_convert_to_invoice_data`: the `Decimal`
coercions (quantity, unit price, amount, vat amount, then discount rate and
discount amount, the latter two without comma removal) run in order inside
a `try`; any failure, or a non-dict item, skips the line. -/
def convertInvoiceItem (idx : Nat) (item : JValue) : Option InvoiceItemRecord :=
  match item with
  | .obj fs => do
    let q ← coerceDec (getD fs "quantity" (.int 0))
    let p ← coerceDec (getD fs "unit_price" (.int 0))
    let a ← coerceDec (getD fs "amount" (.int 0))
    let va ← coerceDec (getD fs "vat_amount" (.int 0))
    let _ ← decimalParse (pyStr (getD fs "discount_rate" (.int 0)))
    let _ ← decimalParse (pyStr (getD fs "discount_amount" (.int 0)))
    some ⟨idx, getD fs "item_code" .null, getD fs "item_name" (.str ""), q, p, a, va⟩
  | _ => none

/-- `inv_date` handling in `_convert_to_invoice_data`: parse
`raw_data.get("inv_date", "")` with `strptime("%Y-%m-%d")` inside a bare
`except`; every failure (unparseable string or non-string value) falls back
to the current date, passed here as `today`. -/
def invoiceInvDate (raw : List (String × JValue)) (today : PyDate) : PyDate :=
  match getD raw "inv_date" (.str "") with
  | .str s => (parseDateYMD s).getD today
  | _ => today

/-- The slice of `InvoiceData` the claims observe (header strings not
referenced by any claim are omitted). -/
structure InvoiceRecord where
  inv_date : PyDate
  seller_tax_code : Option String
  buyer_tax_code : Option String
  total_amount_without_vat : Dec
  total_vat_amount : Dec
  total_amount : Dec
  original_invoice_detail : List InvoiceItemRecord
  processing_time : ℚ
  needs_review : Bool
  review_notes : Option String
deriving Repr

/-- Item loop of `_convert_to_invoice_data`: iterate `raw.get("items", [])`
(raising on a non-iterable value) and build each line, skipping failures. -/
def invoiceItemsRes (raw : List (String × JValue)) :
    Except String (List InvoiceItemRecord) :=
  match List.lookup "items" raw with
  | none => .ok []
  | some v =>
    match pyIterElems v with
    | none => .error "TypeError: object is not iterable"
    | some es => .ok (es.enum.filterMap (fun pr => convertInvoiceItem (pr.1 + 1) pr.2))

/-- `_convert_to_invoice_data` (`ocr_service.py`): assemble the typed
invoice from the validated dictionary; malformed items are skipped, totals
fall back to 0, `needs_review` defaults to `False` and `review_notes` to
`None`. -/
def convert_to_invoice_data (raw : List (String × JValue)) (processing_time : ℚ)
    (today : PyDate) : Except String InvoiceRecord :=
  match invoiceItemsRes raw with
  | .error e => .error e
  | .ok items =>
    match pydOptStr (List.lookup "seller_tax_code" raw),
          pydOptStr (List.lookup "buyer_tax_code" raw),
          pydBool (List.lookup "needs_review" raw),
          pydOptStr (List.lookup "review_notes" raw) with
    | .ok stc, .ok btc, .ok nr, .ok rn =>
        .ok { inv_date := invoiceInvDate raw today
              seller_tax_code := stc
              buyer_tax_code := btc
              total_amount_without_vat := safe_decimal (getD raw "total_amount_without_vat" (.int 0)) ⟨0, 0⟩
              total_vat_amount := safe_decimal (getD raw "total_vat_amount" (.int 0)) ⟨0, 0⟩
              total_amount := safe_decimal (getD raw "total_amount" (.int 0)) ⟨0, 0⟩
              original_invoice_detail := items
              processing_time := processing_time
              needs_review := nr
              review_notes := rn }
    | _, _, _, _ => .error "ValidationError"

/-- Python `a or b`. -/
def pyOr (a b : JValue) : JValue := if pyTruthy a then a else b

/-- The slice of `OrderItemData` the claims can observe. -/
structure OrderItemRecord where
  line_number : JValue
  product_code : JValue
  product_name : JValue
  quantity : Dec
  unit_price : Option Dec
  total_price : Option Dec
deriving Repr

/-- Item assembly inside `_convert_to_order_data`: all decimal reads go
through the swallowing `safe_decimal`, `quantity` defaults to 0; a non-dict
item raises inside the per-item `try` and is skipped. -/
def convertOrderItem (idx : Nat) (item : JValue) : Option OrderItemRecord :=
  match item with
  | .obj fs =>
    some ⟨getD fs "line_number" (.int (Int.ofNat idx)),
          pyOr (getD fs "product_code" .null) (getD fs "code" .null),
          pyOr (getD fs "product_name" .null) (pyOr (getD fs "name" .null) (.str "")),
          (get_safe_decimal (getD fs "quantity" .null)).getD ⟨0, 0⟩,
          get_safe_decimal (getD fs "unit_price" .null),
          get_safe_decimal (getD fs "total_price" .null)⟩
  | _ => none

/-- `order_date` handling in `_convert_to_order_data`: only a truthy value
is considered; a string is parsed with `strptime("%Y-%m-%d")` and a parse
failure (or any non-string, since JSON never yields `date` objects) leaves
the date `None`. -/
def orderOrderDate (raw : List (String × JValue)) : Option PyDate :=
  match List.lookup "order_date" raw with
  | some jv =>
      if pyTruthy jv then
        match jv with
        | .str s => parseDateYMD s
        | _ => none
      else none
  | none => none

/-- The slice of `OrderData` the claims observe. -/
structure OrderRecord where
  customer_name : Option String
  customer_phone : Option String
  order_date : Option PyDate
  items : List OrderItemRecord
  total_amount : Option Dec
  processing_time : ℚ
  needs_review : Bool
  review_notes : Option String
deriving Repr

/-- Item loop of `_convert_to_order_data`. -/
def orderItemsRes (raw : List (String × JValue)) :
    Except String (List OrderItemRecord) :=
  match List.lookup "items" raw with
  | none => .ok []
  | some v =>
    match pyIterElems v with
    | none => .error "TypeError: object is not iterable"
    | some es => .ok (es.enum.filterMap (fun pr => convertOrderItem (pr.1 + 1) pr.2))

/-- `_convert_to_order_data` (`order_service.py`). -/
def convert_to_order_data (raw : List (String × JValue)) (processing_time : ℚ) :
    Except String OrderRecord :=
  match orderItemsRes raw with
  | .error e => .error e
  | .ok items =>
    match pydOptStr (List.lookup "customer_name" raw),
          pydOptStr (List.lookup "customer_phone" raw),
          pydBool (List.lookup "needs_review" raw),
          pydOptStr (List.lookup "review_notes" raw) with
    | .ok cn, .ok cp, .ok nr, .ok rn =>
        .ok { customer_name := cn
              customer_phone := cp
              order_date := orderOrderDate raw
              items := items
              total_amount := get_safe_decimal (getD raw "total_amount" .null)
              processing_time := processing_time
              needs_review := nr
              review_notes := rn }
    | _, _, _, _ => .error "ValidationError"

/-- The caller gate shared by `ocr_routes.upload_and_process_image`,
`order_service.process_image_order` and `process_text_order`: the parsed
payload continues to validation only when `if not parsed_data` is false,
i.e. when extraction succeeded **and** the parsed object is truthy. -/
def parsedPayloadAccepted (response_text : String) : Bool :=
  match extract_json_from_response response_text with
  | none => false
  | some v => pyTruthy v

/-- Writing a key makes it readable. -/
theorem lookup_insertKey_self (fs : List (String × JValue)) (k : String) (v : JValue) :
    List.lookup k (insertKey fs k v) = some v := by
  induction fs with
  | nil => simp [insertKey, List.lookup]
  | cons a fs ih =>
    by_cases hk : a.1 = k
    · simp [insertKey, hk, List.lookup]
    · simp only [insertKey]
      rw [if_neg hk]
      have : (k == a.1) = false := by
        simp [beq_iff_eq]
        exact fun hc => hk hc.symm
      simp [List.lookup, this, ih]

/-- Writing one key leaves every other key unchanged. -/
theorem lookup_insertKey_ne (fs : List (String × JValue)) (k k' : String) (v : JValue)
    (h : ¬ k = k') :
    List.lookup k (insertKey fs k' v) = List.lookup k fs := by
  have hb : (k == k') = false := by simp [beq_iff_eq, h]
  induction fs with
  | nil => simp [insertKey, List.lookup, hb]
  | cons a fs ih =>
    by_cases hk : a.1 = k'
    · have hne : (k == a.1) = false := by
        simp [beq_iff_eq]
        intro hc
        exact h (hc.trans hk)
      simp only [insertKey]
      rw [if_pos hk]
      simp [List.lookup, hne, hb, hk]
    · simp only [insertKey]
      rw [if_neg hk]
      cases hkk : (k == a.1) <;> simp [List.lookup, hkk, ih]

/-- `firstIdx` finds an index exactly when the character occurs. -/
theorem firstIdx_isSome_iff (cs : List Char) (c : Char) :
    (firstIdx cs c).isSome = cs.contains c := by
  induction cs with
  | nil => rfl
  | cons x xs ih =>
    by_cases h : x = c
    · simp [firstIdx, h]
    · have h' : ¬ c = x := fun hc => h hc.symm
      simp only [firstIdx, if_neg h]
      rw [show ((firstIdx xs c).map (· + 1)).isSome = (firstIdx xs c).isSome by
        cases firstIdx xs c <;> rfl]
      rw [ih]
      simp [h']

/-- `lastIdx` finds an index exactly when the character occurs. -/
theorem lastIdx_isSome_iff (cs : List Char) (c : Char) :
    (lastIdx cs c).isSome = cs.contains c := by
  have h := firstIdx_isSome_iff cs.reverse c
  simp only [lastIdx]
  rw [show (Option.map (fun i => cs.length - 1 - i) (firstIdx cs.reverse c)).isSome
        = (firstIdx cs.reverse c).isSome by cases firstIdx cs.reverse c <;> rfl]
  rw [h]
  simp

/-- C3: the specification requires that an extracted empty object
`\x7b\x7d` count as a successful extraction, distinct from "payload not
found", and proceed to normalization with all-default fields. The
extractor does return the parsed empty object, but every caller guards it
with Python's `if not parsed_data:`, under which an empty dict is falsy —
so the pipeline reports an extraction failure instead of proceeding. -/
theorem empty_object_is_parsed_but_pipeline_rejects_it :
    extract_json_from_response "\x7b\x7d" = some (JValue.obj []) ∧
    parsedPayloadAccepted "\x7b\x7d" = false :=
  ⟨rfl, rfl⟩

/-- C4: the payload extractor strips surrounding whitespace, drops the
first and last lines of a fenced text with more than two lines, takes the
substring from the first `\x7b` to the last `\x7d` inclusive and decodes it
with the full JSON parser; with no `\x7b` or no `\x7d`, or on a parse
failure, it returns a definite "not found" and never a partial object —
i.e. it coincides with the extractor the specification describes. -/
theorem extract_json_matches_spec (s : String) :
    extract_json_from_response s = extractJsonSpec s := by
  unfold extract_json_from_response extractJsonSpec
  dsimp only
  cases hf : firstIdx (fenceStrip s).data '\x7b' with
  | none =>
    have h1 : (fenceStrip s).data.contains '\x7b' = false := by
      rw [← firstIdx_isSome_iff, hf]
      rfl
    rw [h1]
    cases lastIdx (fenceStrip s).data '\x7d' <;> simp
  | some st =>
    cases hl : lastIdx (fenceStrip s).data '\x7d' with
    | none =>
      have h2 : (fenceStrip s).data.contains '\x7d' = false := by
        rw [← lastIdx_isSome_iff, hl]
        rfl
      rw [h2]
      simp
    | some en =>
      have h1 : (fenceStrip s).data.contains '\x7b' = true := by
        rw [← firstIdx_isSome_iff, hf]
        rfl
      have h2 : (fenceStrip s).data.contains '\x7d' = true := by
        rw [← lastIdx_isSome_iff, hl]
        rfl
      rw [h1, h2]
      simp

/-- C5 counterexample: the claim says normalizing the monetary string
"1.000.000đ" yields 1000000 because grouping separators and the currency
symbol are removed first. The code removes only commas (and, in the order
pipeline, spaces): both normalizers fail on this input and fall back to
the default instead of producing 1000000. -/
theorem monetary_dot_grouping_not_normalized :
    coerceDec (JValue.str "1.000.000đ") = none ∧
    get_safe_decimal (JValue.str "1.000.000đ") = none ∧
    safe_decimal (JValue.str "1.000.000đ") ⟨0, 0⟩ = ⟨0, 0⟩ ∧
    safe_decimal (JValue.str "1.000.000đ") ⟨0, 0⟩ ≠ ⟨1000000, 0⟩ := by
  refine ⟨rfl, rfl, rfl, ?_⟩
  decide

/-- C5 amended: only commas (invoice pipeline) or commas and spaces (order
pipeline) are stripped before decimal parsing; dots and currency symbols
are not. "1.000.000đ" therefore fails normalization and the field falls
back to its default (0 via `safe_decimal`, null via `get_safe_decimal`),
silently; the value 1000000 is produced for comma-grouped input such as
"1,000,000". -/
theorem monetary_normalization_comma_only :
    coerceDec (JValue.str "1,000,000") = some ⟨1000000, 0⟩ ∧
    get_safe_decimal (JValue.str "1,000,000") = some ⟨1000000, 0⟩ ∧
    coerceDec (JValue.str "1.000.000đ") = none ∧
    safe_decimal (JValue.str "1.000.000đ") ⟨0, 0⟩ = ⟨0, 0⟩ ∧
    get_safe_decimal (JValue.str "1.000.000đ") = none :=
  ⟨rfl, rfl, rfl, rfl, rfl⟩

/-- `taxFix` touches only the review flags and the two tax-code keys. -/
theorem lookup_taxFix (raw : List (String × JValue)) (k : String)
    (h1 : ¬ k = "needs_review") (h2 : ¬ k = "review_notes")
    (h3 : ¬ k = "seller_tax_code") (h4 : ¬ k = "buyer_tax_code") :
    List.lookup k (taxFix raw).1 = List.lookup k raw := by
  unfold taxFix
  dsimp only
  rw [lookup_insertKey_ne _ _ _ _ h4, lookup_insertKey_ne _ _ _ _ h3]
  split
  · rw [lookup_insertKey_ne _ _ _ _ h2, lookup_insertKey_ne _ _ _ _ h1]
  · rfl

/-- `phoneFix` touches only `customer_phone` and `needs_review`. -/
theorem lookup_phoneFix (raw : List (String × JValue)) (k : String)
    (h1 : ¬ k = "needs_review") (h2 : ¬ k = "customer_phone") :
    List.lookup k (phoneFix raw).1 = List.lookup k raw := by
  unfold phoneFix
  dsimp only
  split
  · split
    · dsimp only
      rw [lookup_insertKey_ne _ _ _ _ h2]
      split
      · dsimp only
        rw [lookup_insertKey_ne _ _ _ _ h1]
      · rfl
    · rfl
  · rfl

/-- `missingInfoFix` touches only `needs_review` and `review_notes`. -/
theorem lookup_missingInfoFix (raw : List (String × JValue)) (k : String)
    (h1 : ¬ k = "needs_review") (h2 : ¬ k = "review_notes") :
    List.lookup k (missingInfoFix raw) = List.lookup k raw := by
  unfold missingInfoFix
  dsimp only
  split
  · rw [lookup_insertKey_ne _ _ _ _ h2, lookup_insertKey_ne _ _ _ _ h1]
  · rfl

/-- A write that is either to another key, or of the literal `True`,
preserves a true `needs_review` entry. -/
theorem nrTrue_insertKey (fs : List (String × JValue)) (k : String) (v : JValue)
    (hv : k = "needs_review" → v = JValue.bool true)
    (h : List.lookup "needs_review" fs = some (JValue.bool true)) :
    List.lookup "needs_review" (insertKey fs k v) = some (JValue.bool true) := by
  by_cases hk : "needs_review" = k
  · rw [← hk, lookup_insertKey_self, hv hk.symm]
  · rw [lookup_insertKey_ne _ _ _ _ hk]
    exact h

/-- `taxFix` can only turn `needs_review` on, never off. -/
theorem nrTrue_taxFix (raw : List (String × JValue))
    (h : List.lookup "needs_review" raw = some (JValue.bool true)) :
    List.lookup "needs_review" (taxFix raw).1 = some (JValue.bool true) := by
  unfold taxFix
  dsimp only
  refine nrTrue_insertKey _ _ _ (fun hk => absurd hk (by decide)) ?_
  refine nrTrue_insertKey _ _ _ (fun hk => absurd hk (by decide)) ?_
  split
  · exact nrTrue_insertKey _ _ _ (fun hk => absurd hk (by decide))
      (nrTrue_insertKey _ _ _ (fun _ => rfl) h)
  · exact h

/-- `phoneFix` can only turn `needs_review` on, never off. -/
theorem nrTrue_phoneFix (raw : List (String × JValue))
    (h : List.lookup "needs_review" raw = some (JValue.bool true)) :
    List.lookup "needs_review" (phoneFix raw).1 = some (JValue.bool true) := by
  unfold phoneFix
  dsimp only
  split
  · split
    · dsimp only
      refine nrTrue_insertKey _ _ _ (fun hk => absurd hk (by decide)) ?_
      split
      · dsimp only
        exact nrTrue_insertKey _ _ _ (fun _ => rfl) h
      · exact h
    · exact h
  · exact h

/-- `missingInfoFix` can only turn `needs_review` on, never off. -/
theorem nrTrue_missingInfoFix (raw : List (String × JValue))
    (h : List.lookup "needs_review" raw = some (JValue.bool true)) :
    List.lookup "needs_review" (missingInfoFix raw) = some (JValue.bool true) := by
  unfold missingInfoFix
  dsimp only
  split
  · exact nrTrue_insertKey _ _ _ (fun hk => absurd hk (by decide))
      (nrTrue_insertKey _ _ _ (fun _ => rfl) h)
  · exact h

/-- C8: an invoice header date string that fails the single canonical
`%Y-%m-%d` parse falls back to "now" (`today`), while an order date that is
absent, falsy, non-string, or unparseable stays `null` — the two pipelines
keep their asymmetric fallbacks. -/
theorem date_fallback_asymmetry
    (raw raw2 : List (String × JValue)) (today : PyDate) (s : String)
    (hs : getD raw "inv_date" (JValue.str "") = JValue.str s)
    (hp : parseDateYMD s = none)
    (ho : ∀ s2, List.lookup "order_date" raw2 = some (JValue.str s2) →
            parseDateYMD s2 = none) :
    invoiceInvDate raw today = today ∧ orderOrderDate raw2 = none := by
  constructor
  · unfold invoiceInvDate
    rw [hs]
    dsimp only
    rw [hp]
    rfl
  · unfold orderOrderDate
    cases hv : List.lookup "order_date" raw2 with
    | none => rfl
    | some jv =>
      cases jv with
      | str s2 =>
        have hn := ho s2 hv
        dsimp only
        split
        · exact hn
        · rfl
      | null => rfl
      | bool b => dsimp only; split <;> rfl
      | int n => dsimp only; split <;> rfl
      | float d => dsimp only; split <;> rfl
      | arr xs => dsimp only; split <;> rfl
      | obj fs => dsimp only; split <;> rfl

/-- C8 witness: a `DD-MM-YYYY` string fails the canonical parse; the
invoice date becomes "today" while the order date becomes `null`. -/
theorem date_fallback_asymmetry_witness :
    invoiceInvDate [("inv_date", JValue.str "31-12-2025")] ⟨2026, 1, 2⟩ = ⟨2026, 1, 2⟩ ∧
    orderOrderDate [("order_date", JValue.str "31-12-2025")] = none := by
  refine date_fallback_asymmetry _ _ ⟨2026, 1, 2⟩ "31-12-2025" rfl rfl ?_
  intro s2 h
  rw [show List.lookup "order_date" [("order_date", JValue.str "31-12-2025")]
        = some (JValue.str "31-12-2025") from rfl] at h
  simp only [Option.some.injEq, JValue.str.injEq] at h
  rw [← h]
  rfl

/-- C9 counterexample: the claim says the validators never raise for
arbitrary JSON field values, including `null` where a list was expected.
With `items` set to JSON `null`, both validators iterate a non-iterable
value outside any `try` and the `TypeError` escapes. -/
theorem validators_raise_on_null_items :
    validate_and_fix_numbers [("items", JValue.null)]
        = Except.error "TypeError: object is not iterable" ∧
    validate_order_data [("items", JValue.null)]
        = Except.error "TypeError: object is not iterable" :=
  ⟨rfl, rfl⟩

/-- C9 amended: as long as the `items` value, when present, is iterable
(a list; in Python also a string or dict), both validators return a result
without raising — every other anomaly is swallowed into warnings and
defaults. -/
theorem validators_total_on_iterable_items (raw : List (String × JValue))
    (h : ∀ v, List.lookup "items" raw = some v → (pyIterElems v).isSome = true) :
    (∃ r, validate_and_fix_numbers raw = .ok r) ∧
    (∃ r, validate_order_data raw = .ok r) := by
  constructor
  · unfold validate_and_fix_numbers
    dsimp only
    cases hv : List.lookup "items" (taxFix raw).1 with
    | none => exact ⟨_, rfl⟩
    | some v =>
      rw [lookup_taxFix raw "items" (by decide) (by decide) (by decide) (by decide)] at hv
      have hit := h v hv
      obtain ⟨es, hie⟩ := Option.isSome_iff_exists.mp hit
      simp only [runItems, hie]
      exact ⟨_, rfl⟩
  · unfold validate_order_data
    dsimp only
    cases hv : List.lookup "items" (phoneFix raw).1 with
    | none => exact ⟨_, rfl⟩
    | some v =>
      rw [lookup_phoneFix raw "items" (by decide) (by decide)] at hv
      have hit := h v hv
      obtain ⟨es, hie⟩ := Option.isSome_iff_exists.mp hit
      simp only [runItems, hie]
      exact ⟨_, rfl⟩

/-- C9 amended, witness: a dictionary full of wrongly-typed values (a list
as tax code, a string and a null among the items, a non-numeric total, an
integer phone) is handled by both validators without raising. -/
theorem validators_total_witness :
    (∃ r, validate_and_fix_numbers
        [("seller_tax_code", JValue.arr [JValue.int 1]),
         ("items", JValue.arr [JValue.str "x", JValue.null]),
         ("total_amount", JValue.str "abc"),
         ("customer_phone", JValue.int 7)] = .ok r) ∧
    (∃ r, validate_order_data
        [("seller_tax_code", JValue.arr [JValue.int 1]),
         ("items", JValue.arr [JValue.str "x", JValue.null]),
         ("total_amount", JValue.str "abc"),
         ("customer_phone", JValue.int 7)] = .ok r) := by
  refine validators_total_on_iterable_items _ ?_
  intro v hv
  rw [show List.lookup "items"
        [("seller_tax_code", JValue.arr [JValue.int 1]),
         ("items", JValue.arr [JValue.str "x", JValue.null]),
         ("total_amount", JValue.str "abc"),
         ("customer_phone", JValue.int 7)]
      = some (JValue.arr [JValue.str "x", JValue.null]) from rfl] at hv
  simp only [Option.some.injEq] at hv
  rw [← hv]
  rfl

/-- C10: `needs_review` is monotone. If the incoming dictionary already has
`needs_review = true`, both validators return a dictionary where it is
still `true` (they only ever assign `True`), and both assemblers carry a
true flag unchanged into the typed record. -/
theorem needs_review_monotone
    (raw out out2 d : List (String × JValue)) (ws ws2 : List String)
    (pt : ℚ) (today : PyDate) (rec : InvoiceRecord) (rec2 : OrderRecord)
    (hnr : List.lookup "needs_review" raw = some (JValue.bool true))
    (hd : List.lookup "needs_review" d = some (JValue.bool true)) :
    (validate_and_fix_numbers raw = .ok (out, ws) →
        List.lookup "needs_review" out = some (JValue.bool true)) ∧
    (validate_order_data raw = .ok (out2, ws2) →
        List.lookup "needs_review" out2 = some (JValue.bool true)) ∧
    (convert_to_invoice_data d pt today = .ok rec → rec.needs_review = true) ∧
    (convert_to_order_data d pt = .ok rec2 → rec2.needs_review = true) := by
  refine ⟨?_, ?_, ?_, ?_⟩
  · intro h
    unfold validate_and_fix_numbers at h
    dsimp only at h
    revert h
    cases hv : List.lookup "items" (taxFix raw).1 with
    | none =>
      intro h
      simp only [Except.ok.injEq, Prod.mk.injEq] at h
      obtain ⟨h1, h2⟩ := h
      rw [← h1]
      exact nrTrue_taxFix raw hnr
    | some v =>
      intro h
      dsimp only at h
      rcases hr : runItems validateInvoiceItem v with _ | ⟨v2, ws0⟩
      · rw [hr] at h
        exact Except.noConfusion h
      · rw [hr] at h
        simp only [Except.ok.injEq, Prod.mk.injEq] at h
        obtain ⟨h1, h2⟩ := h
        rw [← h1]
        exact nrTrue_insertKey _ _ _ (fun hk => absurd hk (by decide)) (nrTrue_taxFix raw hnr)
  · intro h
    unfold validate_order_data at h
    dsimp only at h
    revert h
    cases hv : List.lookup "items" (phoneFix raw).1 with
    | none =>
      intro h
      simp only [Except.ok.injEq, Prod.mk.injEq] at h
      obtain ⟨h1, h2⟩ := h
      rw [← h1]
      exact nrTrue_missingInfoFix _ (nrTrue_phoneFix raw hnr)
    | some v =>
      intro h
      dsimp only at h
      rcases hr : runItems validateOrderItem v with _ | ⟨v2, res⟩
      · rw [hr] at h
        exact Except.noConfusion h
      · rw [hr] at h
        simp only [Except.ok.injEq, Prod.mk.injEq] at h
        obtain ⟨h1, h2⟩ := h
        rw [← h1]
        refine nrTrue_missingInfoFix _ ?_
        split
        · exact nrTrue_insertKey _ _ _ (fun _ => rfl)
            (nrTrue_insertKey _ _ _ (fun hk => absurd hk (by decide))
              (nrTrue_phoneFix raw hnr))
        · exact nrTrue_insertKey _ _ _ (fun hk => absurd hk (by decide))
            (nrTrue_phoneFix raw hnr)
  · intro h
    unfold convert_to_invoice_data at h
    rcases hi : invoiceItemsRes d with e | items
    · rw [hi] at h
      exact Except.noConfusion h
    · rw [hi] at h
      rw [hd] at h
      simp only [pydBool] at h
      rcases h1 : pydOptStr (List.lookup "seller_tax_code" d) with e1 | stc <;> rw [h1] at h
      · exact Except.noConfusion h
      rcases h2 : pydOptStr (List.lookup "buyer_tax_code" d) with e2 | btc <;> rw [h2] at h
      · exact Except.noConfusion h
      rcases h3 : pydOptStr (List.lookup "review_notes" d) with e3 | rn <;> rw [h3] at h
      · exact Except.noConfusion h
      simp only [Except.ok.injEq] at h
      rw [← h]
  · intro h
    unfold convert_to_order_data at h
    rcases hi : orderItemsRes d with e | items
    · rw [hi] at h
      exact Except.noConfusion h
    · rw [hi] at h
      rw [hd] at h
      simp only [pydBool] at h
      rcases h1 : pydOptStr (List.lookup "customer_name" d) with e1 | cn <;> rw [h1] at h
      · exact Except.noConfusion h
      rcases h2 : pydOptStr (List.lookup "customer_phone" d) with e2 | cp <;> rw [h2] at h
      · exact Except.noConfusion h
      rcases h3 : pydOptStr (List.lookup "review_notes" d) with e3 | rn <;> rw [h3] at h
      · exact Except.noConfusion h
      simp only [Except.ok.injEq] at h
      rw [← h]

/-- C10 witness: a dictionary already flagged for review keeps the flag
through both validators, and both assemblers emit `needs_review = true`. -/
theorem needs_review_monotone_witness :
    (validate_and_fix_numbers [("needs_review", JValue.bool true)] =
        .ok ([("needs_review", JValue.bool true),
              ("seller_tax_code", JValue.null), ("buyer_tax_code", JValue.null)], []) →
      List.lookup "needs_review"
        [("needs_review", JValue.bool true),
         ("seller_tax_code", JValue.null), ("buyer_tax_code", JValue.null)]
        = some (JValue.bool true)) ∧
    (validate_order_data [("needs_review", JValue.bool true)] =
        .ok ([("needs_review", JValue.bool true),
              ("review_notes", JValue.str "Thiếu tên khách hàng; Thiếu số điện thoại")], []) →
      List.lookup "needs_review"
        [("needs_review", JValue.bool true),
         ("review_notes", JValue.str "Thiếu tên khách hàng; Thiếu số điện thoại")]
        = some (JValue.bool true)) ∧
    (convert_to_invoice_data [("needs_review", JValue.bool true)] 0 ⟨2026, 1, 2⟩ =
        .ok { inv_date := ⟨2026, 1, 2⟩, seller_tax_code := none, buyer_tax_code := none,
              total_amount_without_vat := ⟨0, 0⟩, total_vat_amount := ⟨0, 0⟩,
              total_amount := ⟨0, 0⟩, original_invoice_detail := [],
              processing_time := 0, needs_review := true, review_notes := none } →
      ({ inv_date := ⟨2026, 1, 2⟩, seller_tax_code := none, buyer_tax_code := none,
         total_amount_without_vat := ⟨0, 0⟩, total_vat_amount := ⟨0, 0⟩,
         total_amount := ⟨0, 0⟩, original_invoice_detail := [],
         processing_time := 0, needs_review := true,
         review_notes := none } : InvoiceRecord).needs_review = true) ∧
    (convert_to_order_data [("needs_review", JValue.bool true)] 0 =
        .ok { customer_name := none, customer_phone := none, order_date := none,
              items := [], total_amount := none, processing_time := 0,
              needs_review := true, review_notes := none } →
      ({ customer_name := none, customer_phone := none, order_date := none,
         items := [], total_amount := none, processing_time := 0,
         needs_review := true, review_notes := none } : OrderRecord).needs_review = true) :=
  needs_review_monotone _ _ _ _ _ _ 0 ⟨2026, 1, 2⟩ _ _ rfl rfl

/-- When both cleaned tax codes exist and coincide, `taxFix` sets the
review flag and note, rewrites both codes to the cleaned value, and logs
the collision warning. -/
theorem taxFix_collision (raw : List (String × JValue)) (t : String)
    (hs : (clean_tax_code (List.lookup "seller_tax_code" raw)).1 = some t)
    (hb : (clean_tax_code (List.lookup "buyer_tax_code" raw)).1 = some t) :
    (taxFix raw).1 =
      insertKey (insertKey (insertKey (insertKey raw "needs_review" (JValue.bool true))
        "review_notes" (JValue.str taxCollisionNote)) "seller_tax_code" (JValue.str t))
        "buyer_tax_code" (JValue.str t) ∧
    taxCollisionWarn t ∈ (taxFix raw).2 := by
  unfold taxFix
  dsimp only
  rw [hs, hb]
  dsimp only
  rw [if_pos rfl]
  exact ⟨rfl, by simp⟩

/-- Without a collision, `taxFix` only rewrites the two tax-code keys. -/
theorem lookup_taxFix_nocollision (raw : List (String × JValue)) (k : String)
    (hnc : ∀ u, (clean_tax_code (List.lookup "seller_tax_code" raw)).1 = some u →
        ¬ (clean_tax_code (List.lookup "buyer_tax_code" raw)).1 = some u)
    (hk1 : ¬ k = "seller_tax_code") (hk2 : ¬ k = "buyer_tax_code") :
    List.lookup k (taxFix raw).1 = List.lookup k raw := by
  unfold taxFix
  dsimp only
  rw [lookup_insertKey_ne _ _ _ _ hk2, lookup_insertKey_ne _ _ _ _ hk1]
  cases hst : (clean_tax_code (List.lookup "seller_tax_code" raw)).1 with
  | none => rfl
  | some u =>
    cases hbt : (clean_tax_code (List.lookup "buyer_tax_code" raw)).1 with
    | none => rfl
    | some w =>
      have hne : ¬ u = w := fun he => hnc u hst (by rw [hbt, he])
      dsimp only
      rw [if_neg hne]

/-- The invoice validator leaves every key outside
`{seller_tax_code, buyer_tax_code, items}` unchanged when there is no
tax-code collision. -/
theorem validate_invoice_lookup_nocollision
    (raw out : List (String × JValue)) (ws : List String) (k : String)
    (hnc : ∀ u, (clean_tax_code (List.lookup "seller_tax_code" raw)).1 = some u →
        ¬ (clean_tax_code (List.lookup "buyer_tax_code" raw)).1 = some u)
    (hk1 : ¬ k = "seller_tax_code") (hk2 : ¬ k = "buyer_tax_code")
    (hk3 : ¬ k = "items")
    (hok : validate_and_fix_numbers raw = .ok (out, ws)) :
    List.lookup k out = List.lookup k raw := by
  unfold validate_and_fix_numbers at hok
  dsimp only at hok
  revert hok
  cases hv : List.lookup "items" (taxFix raw).1 with
  | none =>
    intro hok
    simp only [Except.ok.injEq, Prod.mk.injEq] at hok
    obtain ⟨h1, h2⟩ := hok
    rw [← h1]
    exact lookup_taxFix_nocollision raw k hnc hk1 hk2
  | some v =>
    intro hok
    dsimp only at hok
    rcases hr : runItems validateInvoiceItem v with _ | ⟨v2, ws0⟩
    · rw [hr] at hok
      exact Except.noConfusion hok
    · rw [hr] at hok
      simp only [Except.ok.injEq, Prod.mk.injEq] at hok
      obtain ⟨h1, h2⟩ := hok
      rw [← h1, lookup_insertKey_ne _ _ _ _ hk3]
      exact lookup_taxFix_nocollision raw k hnc hk1 hk2

/-- The warnings returned by the invoice validator end with the aggregate
check computed on the returned dictionary. -/
theorem validate_invoice_ws_shape (raw out : List (String × JValue)) (ws : List String)
    (hok : validate_and_fix_numbers raw = .ok (out, ws)) :
    ∃ pre, ws = pre ++ totalsWarnings out := by
  unfold validate_and_fix_numbers at hok
  dsimp only at hok
  revert hok
  cases hv : List.lookup "items" (taxFix raw).1 with
  | none =>
    intro hok
    simp only [Except.ok.injEq, Prod.mk.injEq] at hok
    obtain ⟨h1, h2⟩ := hok
    exact ⟨(taxFix raw).2, by rw [← h2, h1]⟩
  | some v =>
    intro hok
    dsimp only at hok
    rcases hr : runItems validateInvoiceItem v with _ | ⟨v2, ws0⟩
    · rw [hr] at hok
      exact Except.noConfusion hok
    · rw [hr] at hok
      simp only [Except.ok.injEq, Prod.mk.injEq] at hok
      obtain ⟨h1, h2⟩ := hok
      refine ⟨(taxFix raw).2 ++ ws0.filterMap id, ?_⟩
      rw [← h2, h1, List.append_assoc]

/-- C6: when the cleaned (digits-only) seller and buyer tax codes both
exist and are equal, the invoice validator sets `needs_review`, writes the
collision note into `review_notes`, stores exactly the cleaned value in
both tax-code fields, and logs the collision warning. -/
theorem tax_code_collision_flags_review
    (raw out : List (String × JValue)) (ws : List String) (t : String)
    (hs : (clean_tax_code (List.lookup "seller_tax_code" raw)).1 = some t)
    (hb : (clean_tax_code (List.lookup "buyer_tax_code" raw)).1 = some t)
    (hok : validate_and_fix_numbers raw = .ok (out, ws)) :
    List.lookup "needs_review" out = some (JValue.bool true) ∧
    List.lookup "review_notes" out = some (JValue.str taxCollisionNote) ∧
    List.lookup "seller_tax_code" out = some (JValue.str t) ∧
    List.lookup "buyer_tax_code" out = some (JValue.str t) ∧
    taxCollisionWarn t ∈ ws := by
  obtain ⟨htf, hw⟩ := taxFix_collision raw t hs hb
  have l1 : List.lookup "needs_review" (taxFix raw).1 = some (JValue.bool true) := by
    rw [htf, lookup_insertKey_ne _ _ _ _ (by decide), lookup_insertKey_ne _ _ _ _ (by decide),
        lookup_insertKey_ne _ _ _ _ (by decide), lookup_insertKey_self]
  have l2 : List.lookup "review_notes" (taxFix raw).1 = some (JValue.str taxCollisionNote) := by
    rw [htf, lookup_insertKey_ne _ _ _ _ (by decide), lookup_insertKey_ne _ _ _ _ (by decide),
        lookup_insertKey_self]
  have l3 : List.lookup "seller_tax_code" (taxFix raw).1 = some (JValue.str t) := by
    rw [htf, lookup_insertKey_ne _ _ _ _ (by decide), lookup_insertKey_self]
  have l4 : List.lookup "buyer_tax_code" (taxFix raw).1 = some (JValue.str t) := by
    rw [htf, lookup_insertKey_self]
  unfold validate_and_fix_numbers at hok
  dsimp only at hok
  revert hok
  cases hv : List.lookup "items" (taxFix raw).1 with
  | none =>
    intro hok
    simp only [Except.ok.injEq, Prod.mk.injEq] at hok
    obtain ⟨h1, h2⟩ := hok
    rw [← h1, ← h2]
    refine ⟨l1, l2, l3, l4, ?_⟩
    exact List.mem_append.mpr (Or.inl hw)
  | some v =>
    intro hok
    dsimp only at hok
    rcases hr : runItems validateInvoiceItem v with _ | ⟨v2, ws0⟩
    · rw [hr] at hok
      exact Except.noConfusion hok
    · rw [hr] at hok
      simp only [Except.ok.injEq, Prod.mk.injEq] at hok
      obtain ⟨h1, h2⟩ := hok
      rw [← h1, ← h2]
      rw [lookup_insertKey_ne _ _ _ _ (by decide), lookup_insertKey_ne _ _ _ _ (by decide),
          lookup_insertKey_ne _ _ _ _ (by decide), lookup_insertKey_ne _ _ _ _ (by decide)]
      refine ⟨l1, l2, l3, l4, ?_⟩
      exact List.mem_append.mpr (Or.inl (List.mem_append.mpr (Or.inl hw)))

/-- C6 witness (Scenario C): seller and buyer tax code both
`"0123456789"` — review flag set, collision note attached, both stored
values are the cleaned digits. -/
theorem tax_code_collision_witness :
    List.lookup "needs_review"
        [("seller_tax_code", JValue.str "0123456789"),
         ("buyer_tax_code", JValue.str "0123456789"),
         ("needs_review", JValue.bool true),
         ("review_notes", JValue.str taxCollisionNote)] = some (JValue.bool true) ∧
    List.lookup "review_notes"
        [("seller_tax_code", JValue.str "0123456789"),
         ("buyer_tax_code", JValue.str "0123456789"),
         ("needs_review", JValue.bool true),
         ("review_notes", JValue.str taxCollisionNote)] = some (JValue.str taxCollisionNote) ∧
    List.lookup "seller_tax_code"
        [("seller_tax_code", JValue.str "0123456789"),
         ("buyer_tax_code", JValue.str "0123456789"),
         ("needs_review", JValue.bool true),
         ("review_notes", JValue.str taxCollisionNote)] = some (JValue.str "0123456789") ∧
    List.lookup "buyer_tax_code"
        [("seller_tax_code", JValue.str "0123456789"),
         ("buyer_tax_code", JValue.str "0123456789"),
         ("needs_review", JValue.bool true),
         ("review_notes", JValue.str taxCollisionNote)] = some (JValue.str "0123456789") ∧
    taxCollisionWarn "0123456789" ∈ [taxCollisionWarn "0123456789"] :=
  tax_code_collision_flags_review
    [("seller_tax_code", JValue.str "0123456789"),
     ("buyer_tax_code", JValue.str "0123456789")]
    _ _ "0123456789" rfl rfl rfl

/-- C2 counterexample: subtotal 10 + tax 1 differs from grand total 5 by
more than the 0.01 tolerance; the validator records the warning and leaves
the three values alone, but — contrary to the claim — it does **not** set
`needs_review`: the returned dictionary has no such key. -/
theorem aggregate_mismatch_review_not_set :
    validate_and_fix_numbers
        [("total_amount_without_vat", JValue.int 10),
         ("total_vat_amount", JValue.int 1),
         ("total_amount", JValue.int 5)]
      = .ok ([("total_amount_without_vat", JValue.int 10),
              ("total_vat_amount", JValue.int 1),
              ("total_amount", JValue.int 5),
              ("seller_tax_code", JValue.null),
              ("buyer_tax_code", JValue.null)],
             [totalsMismatchWarn ⟨10, 0⟩ ⟨1, 0⟩ ⟨5, 0⟩]) ∧
    (((Dec.add ⟨10, 0⟩ ⟨1, 0⟩).sub ⟨5, 0⟩).absD.gtD ⟨1, -2⟩) = true ∧
    List.lookup "needs_review"
        [("total_amount_without_vat", JValue.int 10),
         ("total_vat_amount", JValue.int 1),
         ("total_amount", JValue.int 5),
         ("seller_tax_code", JValue.null),
         ("buyer_tax_code", JValue.null)] = none :=
  ⟨rfl, rfl, rfl⟩

/-- C2 amended: when the three aggregate fields coerce and
`|(subtotal + tax) - total|` exceeds the 0.01 tolerance, the validator
records the aggregate warning and leaves all three values unmodified, and
(absent a tax-code collision, which is a different rule) it leaves
`needs_review` exactly as it was — the mismatch is never auto-corrected
and never flags review by itself. -/
theorem aggregate_mismatch_warns_values_untouched
    (raw out : List (String × JValue)) (ws : List String) (s t g : Dec)
    (hnc : ∀ u, (clean_tax_code (List.lookup "seller_tax_code" raw)).1 = some u →
        ¬ (clean_tax_code (List.lookup "buyer_tax_code" raw)).1 = some u)
    (hcs : coerceDec (getD raw "total_amount_without_vat" (JValue.int 0)) = some s)
    (hct : coerceDec (getD raw "total_vat_amount" (JValue.int 0)) = some t)
    (hcg : coerceDec (getD raw "total_amount" (JValue.int 0)) = some g)
    (hmis : ((s.add t).sub g).absD.gtD ⟨1, -2⟩ = true)
    (hok : validate_and_fix_numbers raw = .ok (out, ws)) :
    totalsMismatchWarn s t g ∈ ws ∧
    List.lookup "total_amount_without_vat" out = List.lookup "total_amount_without_vat" raw ∧
    List.lookup "total_vat_amount" out = List.lookup "total_vat_amount" raw ∧
    List.lookup "total_amount" out = List.lookup "total_amount" raw ∧
    List.lookup "needs_review" out = List.lookup "needs_review" raw := by
  have e1 := validate_invoice_lookup_nocollision raw out ws "total_amount_without_vat"
    hnc (by decide) (by decide) (by decide) hok
  have e2 := validate_invoice_lookup_nocollision raw out ws "total_vat_amount"
    hnc (by decide) (by decide) (by decide) hok
  have e3 := validate_invoice_lookup_nocollision raw out ws "total_amount"
    hnc (by decide) (by decide) (by decide) hok
  have e4 := validate_invoice_lookup_nocollision raw out ws "needs_review"
    hnc (by decide) (by decide) (by decide) hok
  have hg1 : getD out "total_amount_without_vat" (JValue.int 0)
      = getD raw "total_amount_without_vat" (JValue.int 0) := by
    unfold getD
    rw [e1]
  have hg2 : getD out "total_vat_amount" (JValue.int 0)
      = getD raw "total_vat_amount" (JValue.int 0) := by
    unfold getD
    rw [e2]
  have hg3 : getD out "total_amount" (JValue.int 0)
      = getD raw "total_amount" (JValue.int 0) := by
    unfold getD
    rw [e3]
  have htw : totalsWarnings out = [totalsMismatchWarn s t g] := by
    unfold totalsWarnings
    rw [hg1, hcs, hg2, hct, hg3, hcg]
    dsimp only
    rw [if_pos hmis]
  obtain ⟨pre, hpre⟩ := validate_invoice_ws_shape raw out ws hok
  refine ⟨?_, e1, e2, e3, e4⟩
  rw [hpre, htw]
  exact List.mem_append.mpr (Or.inr (List.mem_singleton.mpr rfl))

/-- C2 amended, witness: subtotal 20, tax 2, grand total 5. -/
theorem aggregate_mismatch_warns_witness :
    totalsMismatchWarn ⟨20, 0⟩ ⟨2, 0⟩ ⟨5, 0⟩
        ∈ [totalsMismatchWarn ⟨20, 0⟩ ⟨2, 0⟩ ⟨5, 0⟩] ∧
    List.lookup "total_amount_without_vat"
        [("total_amount_without_vat", JValue.int 20),
         ("total_vat_amount", JValue.int 2),
         ("total_amount", JValue.int 5),
         ("seller_tax_code", JValue.null),
         ("buyer_tax_code", JValue.null)]
      = List.lookup "total_amount_without_vat"
        [("total_amount_without_vat", JValue.int 20),
         ("total_vat_amount", JValue.int 2),
         ("total_amount", JValue.int 5)] ∧
    List.lookup "total_vat_amount"
        [("total_amount_without_vat", JValue.int 20),
         ("total_vat_amount", JValue.int 2),
         ("total_amount", JValue.int 5),
         ("seller_tax_code", JValue.null),
         ("buyer_tax_code", JValue.null)]
      = List.lookup "total_vat_amount"
        [("total_amount_without_vat", JValue.int 20),
         ("total_vat_amount", JValue.int 2),
         ("total_amount", JValue.int 5)] ∧
    List.lookup "total_amount"
        [("total_amount_without_vat", JValue.int 20),
         ("total_vat_amount", JValue.int 2),
         ("total_amount", JValue.int 5),
         ("seller_tax_code", JValue.null),
         ("buyer_tax_code", JValue.null)]
      = List.lookup "total_amount"
        [("total_amount_without_vat", JValue.int 20),
         ("total_vat_amount", JValue.int 2),
         ("total_amount", JValue.int 5)] ∧
    List.lookup "needs_review"
        [("total_amount_without_vat", JValue.int 20),
         ("total_vat_amount", JValue.int 2),
         ("total_amount", JValue.int 5),
         ("seller_tax_code", JValue.null),
         ("buyer_tax_code", JValue.null)]
      = List.lookup "needs_review"
        [("total_amount_without_vat", JValue.int 20),
         ("total_vat_amount", JValue.int 2),
         ("total_amount", JValue.int 5)] :=
  aggregate_mismatch_warns_values_untouched
    [("total_amount_without_vat", JValue.int 20),
     ("total_vat_amount", JValue.int 2),
     ("total_amount", JValue.int 5)]
    _ _ ⟨20, 0⟩ ⟨2, 0⟩ ⟨5, 0⟩
    (fun _ hu => Option.noConfusion hu) rfl rfl rfl rfl rfl

/-- C1 counterexample: in the order pipeline a line `{qty: 2,
price: 15000000, total: 0}` has all three values coercible and a mismatch
far beyond tolerance, yet the correction is skipped (Python truthiness: a
zero total fails `if quantity and unit_price and total_price`): the
declared total stays 0 and no warning is recorded — refuting the claim
read over both pipelines. -/
theorem zero_line_total_not_corrected :
    get_safe_decimal (JValue.int 2) = some ⟨2, 0⟩ ∧
    get_safe_decimal (JValue.int 15000000) = some ⟨15000000, 0⟩ ∧
    get_safe_decimal (JValue.int 0) = some ⟨0, 0⟩ ∧
    (((Dec.mul ⟨2, 0⟩ ⟨15000000, 0⟩).sub ⟨0, 0⟩).absD.gtD ⟨1, 0⟩) = true ∧
    validate_order_data
        [("customer_name", JValue.str "A"),
         ("customer_phone", JValue.str "0123456789"),
         ("items", JValue.arr [JValue.obj
            [("quantity", JValue.int 2),
             ("unit_price", JValue.int 15000000),
             ("total_price", JValue.int 0)]])]
      = .ok ([("customer_name", JValue.str "A"),
              ("customer_phone", JValue.str "0123456789"),
              ("items", JValue.arr [JValue.obj
                 [("quantity", JValue.int 2),
                  ("unit_price", JValue.int 15000000),
                  ("total_price", JValue.int 0)]])], []) :=
  ⟨rfl, rfl, rfl, rfl, rfl⟩

/-- C1 amended: in the invoice pipeline the rule holds as claimed with
tolerance 0.01: a line whose quantity, unit price and amount all coerce
and mismatch beyond tolerance gets its amount overwritten with
`str(quantity × unit_price)`, exactly one warning naming the line index
and the values, quantity and unit price untouched; and the whole invoice
validator leaves `needs_review` unchanged absent a tax-code collision. In
the order pipeline the same correction (tolerance 1) applies only when all
three values are additionally nonzero. -/
theorem line_mismatch_corrected
    (fs : List (String × JValue)) (idx : Nat) (q p a : Dec)
    (hq : coerceDec (getD fs "quantity" (JValue.int 0)) = some q)
    (hp : coerceDec (getD fs "unit_price" (JValue.int 0)) = some p)
    (ha : coerceDec (getD fs "amount" (JValue.int 0)) = some a)
    (hmis : (((q.mul p).sub a).absD.gtD ⟨1, -2⟩) = true) :
    validateInvoiceItem idx (JValue.obj fs) =
      (JValue.obj (insertKey fs "amount" (JValue.str (q.mul p).str)),
       some (invItemMismatchWarn idx q p a (q.mul p))) ∧
    List.lookup "quantity" (insertKey fs "amount" (JValue.str (q.mul p).str)) =
      List.lookup "quantity" fs ∧
    List.lookup "unit_price" (insertKey fs "amount" (JValue.str (q.mul p).str)) =
      List.lookup "unit_price" fs ∧
    (∀ raw out ws,
      (∀ u, (clean_tax_code (List.lookup "seller_tax_code" raw)).1 = some u →
          ¬ (clean_tax_code (List.lookup "buyer_tax_code" raw)).1 = some u) →
      validate_and_fix_numbers raw = .ok (out, ws) →
      List.lookup "needs_review" out = List.lookup "needs_review" raw) ∧
    (∀ fs2 idx2 q2 p2 t2,
      get_safe_decimal (getD fs2 "quantity" (JValue.int 0)) = some q2 →
      get_safe_decimal (getD fs2 "unit_price" JValue.null) = some p2 →
      get_safe_decimal (getD fs2 "total_price" JValue.null) = some t2 →
      q2.truthy = true → p2.truthy = true → t2.truthy = true →
      q2.leD ⟨0, 0⟩ = false →
      (((q2.mul p2).sub t2).absD.gtD ⟨1, 0⟩) = true →
      validateOrderItem idx2 (JValue.obj fs2) =
        (JValue.obj (insertKey fs2 "total_price" (JValue.str (q2.mul p2).str)),
         ([ordItemMismatchWarn idx2 q2 p2 t2], false))) := by
  refine ⟨?_, ?_, ?_, ?_, ?_⟩
  · unfold validateInvoiceItem
    dsimp only
    rw [hq, hp, ha]
    dsimp only
    rw [if_pos hmis]
  · exact lookup_insertKey_ne _ _ _ _ (by decide)
  · exact lookup_insertKey_ne _ _ _ _ (by decide)
  · intro raw out ws hnc hok
    exact validate_invoice_lookup_nocollision raw out ws "needs_review"
      hnc (by decide) (by decide) (by decide) hok
  · intro fs2 idx2 q2 p2 t2 hq2 hp2 ht2 hqt hpt htt hqpos hmis2
    unfold validateOrderItem
    dsimp only
    rw [hq2, hp2, ht2]
    dsimp only
    have hcond : ¬ (q2.truthy = true ∧ q2.leD ⟨0, 0⟩ = true) := by
      rintro ⟨-, h2⟩
      rw [hqpos] at h2
      exact Bool.noConfusion h2
    rw [if_neg hcond, if_pos ⟨hqt, hpt, htt⟩]
    dsimp only
    rw [if_pos hmis2, List.nil_append]

/-- C1 amended, witness (Scenario B on the invoice side): quantity 2,
unit price 15000000, declared amount 0 — the amount is overwritten with
"30000000" and the single warning names line 1 and the values. -/
theorem line_mismatch_corrected_witness :
    validateInvoiceItem 1 (JValue.obj
        [("quantity", JValue.int 2), ("unit_price", JValue.int 15000000),
         ("amount", JValue.int 0)]) =
      (JValue.obj (insertKey
          [("quantity", JValue.int 2), ("unit_price", JValue.int 15000000),
           ("amount", JValue.int 0)]
          "amount" (JValue.str (Dec.mul ⟨2, 0⟩ ⟨15000000, 0⟩).str)),
       some (invItemMismatchWarn 1 ⟨2, 0⟩ ⟨15000000, 0⟩ ⟨0, 0⟩
          (Dec.mul ⟨2, 0⟩ ⟨15000000, 0⟩))) ∧
    List.lookup "quantity" (insertKey
        [("quantity", JValue.int 2), ("unit_price", JValue.int 15000000),
         ("amount", JValue.int 0)]
        "amount" (JValue.str (Dec.mul ⟨2, 0⟩ ⟨15000000, 0⟩).str)) =
      List.lookup "quantity"
        [("quantity", JValue.int 2), ("unit_price", JValue.int 15000000),
         ("amount", JValue.int 0)] ∧
    List.lookup "unit_price" (insertKey
        [("quantity", JValue.int 2), ("unit_price", JValue.int 15000000),
         ("amount", JValue.int 0)]
        "amount" (JValue.str (Dec.mul ⟨2, 0⟩ ⟨15000000, 0⟩).str)) =
      List.lookup "unit_price"
        [("quantity", JValue.int 2), ("unit_price", JValue.int 15000000),
         ("amount", JValue.int 0)] ∧
    (∀ raw out ws,
      (∀ u, (clean_tax_code (List.lookup "seller_tax_code" raw)).1 = some u →
          ¬ (clean_tax_code (List.lookup "buyer_tax_code" raw)).1 = some u) →
      validate_and_fix_numbers raw = .ok (out, ws) →
      List.lookup "needs_review" out = List.lookup "needs_review" raw) ∧
    (∀ fs2 idx2 q2 p2 t2,
      get_safe_decimal (getD fs2 "quantity" (JValue.int 0)) = some q2 →
      get_safe_decimal (getD fs2 "unit_price" JValue.null) = some p2 →
      get_safe_decimal (getD fs2 "total_price" JValue.null) = some t2 →
      q2.truthy = true → p2.truthy = true → t2.truthy = true →
      q2.leD ⟨0, 0⟩ = false →
      (((q2.mul p2).sub t2).absD.gtD ⟨1, 0⟩) = true →
      validateOrderItem idx2 (JValue.obj fs2) =
        (JValue.obj (insertKey fs2 "total_price" (JValue.str (q2.mul p2).str)),
         ([ordItemMismatchWarn idx2 q2 p2 t2], false))) :=
  line_mismatch_corrected
    [("quantity", JValue.int 2), ("unit_price", JValue.int 15000000),
     ("amount", JValue.int 0)]
    1 ⟨2, 0⟩ ⟨15000000, 0⟩ ⟨0, 0⟩ rfl rfl rfl rfl

/-- C7 counterexample: an aggregate mismatch produces a warning, but the
warning list is only logged and then dropped — the assembled record
carries `review_notes = none` and `needs_review = false`, so the warning
is discarded rather than concatenated into `review_notes`, and the final
flag is not an OR over warning production. -/
theorem warnings_discarded_counterexample :
    validate_and_fix_numbers
        [("total_amount_without_vat", JValue.int 20),
         ("total_vat_amount", JValue.int 2),
         ("total_amount", JValue.int 3)]
      = .ok ([("total_amount_without_vat", JValue.int 20),
              ("total_vat_amount", JValue.int 2),
              ("total_amount", JValue.int 3),
              ("seller_tax_code", JValue.null),
              ("buyer_tax_code", JValue.null)],
             [totalsMismatchWarn ⟨20, 0⟩ ⟨2, 0⟩ ⟨3, 0⟩]) ∧
    ([totalsMismatchWarn ⟨20, 0⟩ ⟨2, 0⟩ ⟨3, 0⟩] ≠ ([] : List String)) ∧
    convert_to_invoice_data
        [("total_amount_without_vat", JValue.int 20),
         ("total_vat_amount", JValue.int 2),
         ("total_amount", JValue.int 3),
         ("seller_tax_code", JValue.null),
         ("buyer_tax_code", JValue.null)] 0 ⟨2026, 1, 2⟩
      = .ok { inv_date := ⟨2026, 1, 2⟩, seller_tax_code := none, buyer_tax_code := none,
              total_amount_without_vat := ⟨20, 0⟩, total_vat_amount := ⟨2, 0⟩,
              total_amount := ⟨3, 0⟩, original_invoice_detail := [],
              processing_time := 0, needs_review := false, review_notes := none } ∧
    ({ inv_date := ⟨2026, 1, 2⟩, seller_tax_code := none, buyer_tax_code := none,
       total_amount_without_vat := ⟨20, 0⟩, total_vat_amount := ⟨2, 0⟩,
       total_amount := ⟨3, 0⟩, original_invoice_detail := [],
       processing_time := 0, needs_review := false,
       review_notes := none } : InvoiceRecord).review_notes = none ∧
    ({ inv_date := ⟨2026, 1, 2⟩, seller_tax_code := none, buyer_tax_code := none,
       total_amount_without_vat := ⟨20, 0⟩, total_vat_amount := ⟨2, 0⟩,
       total_amount := ⟨3, 0⟩, original_invoice_detail := [],
       processing_time := 0, needs_review := false,
       review_notes := none } : InvoiceRecord).needs_review = false :=
  ⟨rfl, by simp, rfl, rfl, rfl⟩

/-- C7 amended: the validator warning list never flows into the record.
`review_notes` of the assembled invoice comes solely from the dictionary
field of that name, which the invoice validator writes only on a tax-code
collision: with no collision and no incoming note, the assembled record
has `review_notes = none` no matter which warnings were produced. -/
theorem review_notes_from_dict_only
    (raw out : List (String × JValue)) (ws : List String) (pt : ℚ) (today : PyDate)
    (rec : InvoiceRecord)
    (hnc : ∀ u, (clean_tax_code (List.lookup "seller_tax_code" raw)).1 = some u →
        ¬ (clean_tax_code (List.lookup "buyer_tax_code" raw)).1 = some u)
    (hrn : List.lookup "review_notes" raw = none)
    (hok : validate_and_fix_numbers raw = .ok (out, ws))
    (hcv : convert_to_invoice_data out pt today = .ok rec) :
    List.lookup "review_notes" out = none ∧ rec.review_notes = none := by
  have e := validate_invoice_lookup_nocollision raw out ws "review_notes"
    hnc (by decide) (by decide) (by decide) hok
  have hout : List.lookup "review_notes" out = none := by
    rw [e, hrn]
  refine ⟨hout, ?_⟩
  unfold convert_to_invoice_data at hcv
  rcases hi : invoiceItemsRes out with e1 | items
  · rw [hi] at hcv
    exact Except.noConfusion hcv
  · rw [hi] at hcv
    rcases h1 : pydOptStr (List.lookup "seller_tax_code" out) with e1 | stc <;> rw [h1] at hcv
    · exact Except.noConfusion hcv
    rcases h2 : pydOptStr (List.lookup "buyer_tax_code" out) with e2 | btc <;> rw [h2] at hcv
    · exact Except.noConfusion hcv
    rcases h3 : pydBool (List.lookup "needs_review" out) with e3 | nr <;> rw [h3] at hcv
    · exact Except.noConfusion hcv
    rcases h4 : pydOptStr (List.lookup "review_notes" out) with e4 | rn <;> rw [h4] at hcv
    · exact Except.noConfusion hcv
    rw [hout] at h4
    have hrnn : none = rn := by
      injection h4
    simp only [Except.ok.injEq] at hcv
    rw [← hcv]
    exact hrnn.symm

/-- C7 amended, witness: a payload with a 7 + 1 ≠ 100 aggregate mismatch
and no incoming note assembles with empty review notes. -/
theorem review_notes_from_dict_only_witness :
    List.lookup "review_notes"
        [("total_amount_without_vat", JValue.int 7),
         ("total_vat_amount", JValue.int 1),
         ("total_amount", JValue.int 100),
         ("seller_tax_code", JValue.null),
         ("buyer_tax_code", JValue.null)] = none ∧
    ({ inv_date := ⟨2026, 1, 2⟩, seller_tax_code := none, buyer_tax_code := none,
       total_amount_without_vat := ⟨7, 0⟩, total_vat_amount := ⟨1, 0⟩,
       total_amount := ⟨100, 0⟩, original_invoice_detail := [],
       processing_time := 0, needs_review := false,
       review_notes := none } : InvoiceRecord).review_notes = none :=
  review_notes_from_dict_only
    [("total_amount_without_vat", JValue.int 7),
     ("total_vat_amount", JValue.int 1),
     ("total_amount", JValue.int 100)]
    [("total_amount_without_vat", JValue.int 7),
     ("total_vat_amount", JValue.int 1),
     ("total_amount", JValue.int 100),
     ("seller_tax_code", JValue.null),
     ("buyer_tax_code", JValue.null)]
    [totalsMismatchWarn ⟨7, 0⟩ ⟨1, 0⟩ ⟨100, 0⟩] 0 ⟨2026, 1, 2⟩
    { inv_date := ⟨2026, 1, 2⟩, seller_tax_code := none, buyer_tax_code := none,
      total_amount_without_vat := ⟨7, 0⟩, total_vat_amount := ⟨1, 0⟩,
      total_amount := ⟨100, 0⟩, original_invoice_detail := [],
      processing_time := 0, needs_review := false, review_notes := none }
    (fun _ hu => Option.noConfusion hu) rfl rfl rfl

end Amis
